import Mathlib

/-!
Shallow embedding of the StackSentinel Python client
(src/StackSentinel/__init__.py) and verification of the
specification's claims about it.

Python values that can appear in `state`, `tags` and the JSON envelope
are modelled by the inductive `PyVal`; Python dicts keep insertion
order, so they are modelled as ordered association lists.  Exceptions
raised by library calls are modelled with `Except PyErr`.  External
facilities (socket, platform, os.environ, urlopen, json.loads) are
modelled as environment records carrying the outcome each call would
produce in the execution environment at hand.
-/

/-- Python exception objects that the client code can raise or observe. -/
inductive PyErr : Type where
  | stackSentinelError : String → PyErr
  | httpError : Nat → String → PyErr
  | attributeError : String → PyErr
  | typeError : String → PyErr
  | other : String → String → PyErr
deriving DecidableEq, Repr

/-- An opaque, non-JSON-native Python object.  The only thing the client
ever does with such an object is call `repr` on it (inside
`_serialize_object`); `reprResult = none` models `repr` raising. -/
structure ObjData : Type where
  reprResult : Option String
deriving DecidableEq, Repr

/-- Python values as they occur in state dictionaries, tags and the JSON
envelope.  `vObj` is any object the native JSON serializer cannot encode. -/
inductive PyVal : Type where
  | vNone : PyVal
  | vBool : Bool → PyVal
  | vInt : Int → PyVal
  | vStr : String → PyVal
  | vList : List PyVal → PyVal
  | vDict : List (String × PyVal) → PyVal
  | vObj : ObjData → PyVal

/-- A Python dict with string keys, in insertion order. -/
abbrev PyDict := List (String × PyVal)

/-- `d[key]` lookup (first, and only, binding of `key`). -/
def dictLookup : PyDict → String → Option PyVal
  | [], _ => none
  | (k, v) :: rest, key => if k == key then some v else dictLookup rest key

/-- `key in d`. -/
def dictContains (d : PyDict) (key : String) : Bool :=
  (dictLookup d key).isSome

/-- `d[key] = v`: update the existing binding in place, else append. -/
def dictSet : PyDict → String → PyVal → PyDict
  | [], key, v => [(key, v)]
  | (k, w) :: rest, key, v =>
      if k == key then (k, v) :: rest else (k, w) :: dictSet rest key v

/-- Python truthiness of a `PyVal` (used by `tags or []`). -/
def pyTruthy : PyVal → Bool
  | PyVal.vNone => false
  | PyVal.vBool b => b
  | PyVal.vInt n => n != 0
  | PyVal.vStr s => !s.isEmpty
  | PyVal.vList l => !l.isEmpty
  | PyVal.vDict d => !d.isEmpty
  | PyVal.vObj _ => true

/-- Minimal JSON string escaping (backslash and double quote). -/
def jsonEscapeChar (c : Char) : String :=
  if c == '\\' then "\\\\"
  else if c == '\"' then "\\\""
  else String.singleton c

/-- Quote a string as a JSON string literal. -/
def jsonQuote (s : String) : String :=
  "\"" ++ String.join (s.toList.map jsonEscapeChar) ++ "\""

/-- `StackSentinelClient._serialize_object`: `try: return repr(obj)
except: return '<Cannot Be Serialized>'`.  Total because the bare
`except` catches every failure of `repr`. -/
def serialize_object (obj : ObjData) : String :=
  match obj.reprResult with
  | some s => s
  | none => "<Cannot Be Serialized>"

/-- The `default=` callback handed to `json.dumps`: a callback in general
may raise (hence the `Except` codomain of the parameter below), but
`_serialize_object` never does. -/
def serializeDefaultE (obj : ObjData) : Except PyErr String :=
  Except.ok (serialize_object obj)

mutual

/-- `json.dumps` on a `PyVal`, with a `default` callback `sd` used for
values the native serializer cannot encode; if `sd` raises, `dumps`
propagates the failure. -/
def dumpsVal (sd : ObjData → Except PyErr String) : PyVal → Except PyErr String
  | PyVal.vNone => Except.ok "null"
  | PyVal.vBool b => Except.ok (if b then "true" else "false")
  | PyVal.vInt n => Except.ok (toString n)
  | PyVal.vStr s => Except.ok (jsonQuote s)
  | PyVal.vList l =>
      match dumpsList sd l with
      | Except.ok parts => Except.ok ("[" ++ String.intercalate ", " parts ++ "]")
      | Except.error e => Except.error e
  | PyVal.vDict d =>
      match dumpsDict sd d with
      | Except.ok parts => Except.ok ("\x7b" ++ String.intercalate ", " parts ++ "\x7d")
      | Except.error e => Except.error e
  | PyVal.vObj o =>
      match sd o with
      | Except.ok s => Except.ok (jsonQuote s)
      | Except.error e => Except.error e

/-- Serialize the elements of a JSON array. -/
def dumpsList (sd : ObjData → Except PyErr String) : List PyVal → Except PyErr (List String)
  | [] => Except.ok []
  | v :: rest =>
      match dumpsVal sd v with
      | Except.error e => Except.error e
      | Except.ok s =>
          match dumpsList sd rest with
          | Except.error e => Except.error e
          | Except.ok ss => Except.ok (s :: ss)

/-- Serialize the members of a JSON object. -/
def dumpsDict (sd : ObjData → Except PyErr String) : List (String × PyVal) → Except PyErr (List String)
  | [] => Except.ok []
  | (k, v) :: rest =>
      match dumpsVal sd v with
      | Except.error e => Except.error e
      | Except.ok s =>
          match dumpsDict sd rest with
          | Except.error e => Except.error e
          | Except.ok ss => Except.ok ((jsonQuote k ++ ": " ++ s) :: ss)

end

/-- One link of a raw traceback chain: `tb.tb_lineno`,
`tb.tb_frame.f_code.co_filename`, `tb.tb_frame.f_code.co_name`.
The chain itself is modelled as the list of links in chain order
(`tb.tb_next` hops); a `None` traceback is the empty list. -/
structure Frame : Type where
  lineno : Nat
  filename : String
  name : String
deriving DecidableEq, Repr

/-- One entry of the walked traceback:
`{'line': lineno, 'module': filename, 'method': name}`. -/
structure TbEntry : Type where
  line : Nat
  module : String
  method : String
deriving DecidableEq, Repr

/-- An exception value: its `args` tuple, `str(value)` and `repr(value)`. -/
structure ExcValue : Type where
  args : List PyVal
  strText : String
  reprText : String

/-- An `exc_info` triple `(etype, value, tb)`.  `etype = none` and
`value = none` model the Python `None` components of the
`(None, None, None)` triple that `sys.exc_info()` returns when no
exception is being handled. -/
structure Triple : Type where
  etype : Option String
  value : Option ExcValue
  tb : List Frame

/-- `sys.exc_info()`: the currently handled exception's triple, or
`(None, None, None)` when no exception is being handled.  It never
returns `None` itself. -/
def sysExcInfo : Option Triple → Triple
  | none => { etype := none, value := none, tb := [] }
  | some t => t

/-- Lines 125-126: `if not exc_info: exc_info = sys.exc_info()`.
The argument is either the (falsy) default `None` or a triple. -/
def resolveExcInfo (arg : Option Triple) (ambient : Option Triple) : Triple :=
  match arg with
  | none => sysExcInfo ambient
  | some t => t

/-- Lines 131-134: `try: msg = value.args[0] except: msg = repr(value)`.
`None.args` raises (caught), `args[0]` on an empty tuple raises (caught),
and `repr(None)` is `"None"`.  The source never uses `msg` afterwards. -/
def computeMsg : Option ExcValue → PyVal
  | none => PyVal.vStr "None"
  | some v =>
      match v.args with
      | a :: _ => a
      | [] => PyVal.vStr v.reprText

/-- `str(value)` on the value component of the triple (`str(None) = "None"`). -/
def pyStrOfValue : Option ExcValue → String
  | none => "None"
  | some v => v.strText

/-- Lines 136-137: `if not isinstance(tags, list): tags = [tags]`.
A non-list argument — including `None` — is wrapped in a singleton list. -/
def normalizeTagsCode (t : PyVal) : List PyVal :=
  match t with
  | PyVal.vList l => l
  | v => [v]

/-- Modelled from the spec (for the refinement comparison of claim C3
only): "call tags normalized to a list" with the cases the claim lists —
absent/`None` contributes nothing, a single non-list value becomes a
one-element list, a list stays itself. -/
def normalizedSpec : PyVal → List PyVal
  | PyVal.vNone => []
  | PyVal.vList l => l
  | v => [v]

/-- Lines 139-153: the traceback walk.  `limit` is the (source-hardcoded
`None`) frame-count limit, `n` the count so far; the loop body appends
`{'line': ..., 'module': ..., 'method': ...}` per link. -/
def walkTb (limit : Option Nat) (n : Nat) : List Frame → List TbEntry
  | [] => []
  | f :: rest =>
      match limit with
      | none =>
          { line := f.lineno, module := f.filename, method := f.name } ::
            walkTb none (n + 1) rest
      | some l =>
          if n < l then
            { line := f.lineno, module := f.filename, method := f.name } ::
              walkTb (some l) (n + 1) rest
          else []

/-- `repr(e)` for a modelled Python exception (used in placeholders). -/
def pyErrRepr : PyErr → String
  | PyErr.stackSentinelError m => "StackSentinelError(" ++ jsonQuote m ++ ")"
  | PyErr.httpError c m => "HTTPError(" ++ toString c ++ ", " ++ jsonQuote m ++ ")"
  | PyErr.attributeError m => "AttributeError(" ++ jsonQuote m ++ ")"
  | PyErr.typeError m => "TypeError(" ++ jsonQuote m ++ ")"
  | PyErr.other n m => n ++ "(" ++ jsonQuote m ++ ")"

/-- The execution environment as seen by `_get_machine_info`: whether
`socket`/`platform` imported, and the outcome of each facility call. -/
structure MachineEnv : Type where
  socketAvailable : Bool
  gethostname : Except PyErr String
  environSnapshot : Except PyErr PyDict
  platformAvailable : Bool
  uname : Except PyErr PyVal
  node : Except PyErr PyVal
  libc_ver : Except PyErr PyVal
  version : Except PyErr PyVal
  dist : Except PyErr PyVal

/-- `StackSentinelClient._get_machine_info` (lines 201-217).  Only the
`hostname` lookup is inside a `try/except`; the environment snapshot and
every `platform` call are bare, so their failures propagate. -/
def get_machine_info (menv : MachineEnv) : Except PyErr PyDict :=
  let machine : PyDict := []
  let machine :=
    if menv.socketAvailable then
      match menv.gethostname with
      | Except.ok h => dictSet machine "hostname" (PyVal.vStr h)
      | Except.error e =>
          dictSet machine "hostname"
            (PyVal.vStr ("<Could not determine: " ++ pyErrRepr e ++ ">"))
    else
      dictSet machine "hostname" (PyVal.vStr "<socket module not available>")
  match menv.environSnapshot with
  | Except.error e => Except.error e
  | Except.ok envd =>
    let machine := dictSet machine "environ" (PyVal.vDict envd)
    if menv.platformAvailable then
      match menv.uname with
      | Except.error e => Except.error e
      | Except.ok u =>
        let machine := dictSet machine "platform" u
        match menv.node with
        | Except.error e => Except.error e
        | Except.ok nd =>
          let machine := dictSet machine "node" nd
          match menv.libc_ver with
          | Except.error e => Except.error e
          | Except.ok lv =>
            let machine := dictSet machine "libc_ver" lv
            match menv.version with
            | Except.error e => Except.error e
            | Except.ok vv =>
              let machine := dictSet machine "version" vv
              match menv.dist with
              | Except.error e => Except.error e
              | Except.ok dv => Except.ok (dictSet machine "dist" dv)
    else Except.ok machine

/-- `StackSentinelClient` configuration set in `__init__`. -/
structure Client : Type where
  account_token : String
  project_token : String
  environment : String
  tags : List PyVal
  endpoint : String

/-- `StackSentinelClient.USER_AGENT`. -/
def USER_AGENT : String := "STACK SENTINEL PYTHON CLIENT"

/-- `StackSentinelClient.__init__` (lines 84-101): `if tags: self.tags =
tags else: self.tags = []` — the tags argument defaults to `None`
(modelled `none`), and an empty list is falsy. -/
def mkClient (account_token project_token environment : String)
    (tags : Option (List PyVal)) (endpoint : String) : Client :=
  { account_token := account_token
    project_token := project_token
    environment := environment
    tags := match tags with
            | some l => if l.isEmpty then [] else l
            | none => []
    endpoint := endpoint }

/-- What `urlopen(request)` would do: a 2xx response with (already
decoded) body text, an `HTTPError` with status code and body, or a
network-level failure (`URLError`, DNS, timeout, ...). -/
inductive HttpOutcome : Type where
  | success : String → HttpOutcome
  | httpError : Nat → String → HttpOutcome
  | netError : PyErr → HttpOutcome

/-- The transport-facing environment: the network outcome and the
behaviour of `json.loads` on response text. -/
structure TransportEnv : Type where
  http : HttpOutcome
  loads : String → Except PyErr PyVal

/-- The outgoing HTTP request built by `_generate_request`. -/
structure RequestData : Type where
  url : String
  data : String
  headers : List (String × String)

/-- The argument of the `json.dumps` call inside `_generate_request`
(lines 257-269): the envelope dict literal, with `tags or []`. -/
def envelopeVal (client : Client) (environment error_message error_type : String)
    (return_feedback_urls : Bool) (state : PyDict) (tags : PyVal)
    (traceback : List TbEntry) : PyVal :=
  PyVal.vDict
    [("account_token", PyVal.vStr client.account_token),
     ("project_token", PyVal.vStr client.project_token),
     ("return_feedback_urls", PyVal.vBool return_feedback_urls),
     ("errors", PyVal.vList
       [PyVal.vDict
         [("error_type", PyVal.vStr error_type),
          ("error_message", PyVal.vStr error_message),
          ("environment", PyVal.vStr environment),
          ("traceback", PyVal.vList (traceback.map (fun e =>
            PyVal.vDict [("line", PyVal.vInt e.line), ("module", PyVal.vStr e.module),
                         ("method", PyVal.vStr e.method)]))),
          ("state", PyVal.vDict state),
          ("tags", if pyTruthy tags then tags else PyVal.vList [])]])]

/-- `StackSentinelClient._generate_request` (lines 256-274): build the
JSON envelope with `json.dumps(..., default=self._serialize_object)`
and wrap it in a `Request` with the fixed headers. -/
def generate_request (client : Client) (environment error_message error_type : String)
    (return_feedback_urls : Bool) (state : PyDict) (tags : PyVal)
    (traceback : List TbEntry) : Except PyErr (RequestData × String) :=
  match dumpsVal serializeDefaultE
      (envelopeVal client environment error_message error_type
        return_feedback_urls state tags traceback) with
  | Except.error e => Except.error e
  | Except.ok payload =>
      Except.ok
        ({ url := client.endpoint
           data := payload
           headers :=
             [("Accept-Charset", "utf-8"),
              ("Content-Type", "application/x-www-form-urlencoded ; charset=UTF-8"),
              ("User-Agent", USER_AGENT)] }, payload)

/-- `StackSentinelClient.send_error` (lines 219-254), on a Python 3
runtime: build the request, `urlopen` it, map an HTTP 400 to
`StackSentinelError(e.read())`, re-raise any other `HTTPError`
unchanged, decode the success body with the declared charset
(defaulting to utf-8 — decoding is the identity in this text model) and
`json.loads` it.  The second component counts `urlopen` calls. -/
def send_error (client : Client) (tenv : TransportEnv) (error_type error_message : String)
    (traceback : List TbEntry) (environment : String) (state : PyDict)
    (tags : PyVal) (return_feedback_urls : Bool) : Except PyErr PyVal × Nat :=
  match generate_request client environment error_message error_type
      return_feedback_urls state tags traceback with
  | Except.error e => (Except.error e, 0)
  | Except.ok _ =>
      match tenv.http with
      | HttpOutcome.success body => (tenv.loads body, 1)
      | HttpOutcome.httpError code body =>
          if code == 400 then (Except.error (PyErr.stackSentinelError body), 1)
          else (Except.error (PyErr.httpError code body), 1)
      | HttpOutcome.netError e => (Except.error e, 1)

/-- The heap of live state-dict objects; a state reference is an index
into it.  Passing a dict to `handle_exception` passes the reference, so
writes through it are visible to the caller afterwards. -/
abbrev Store := List PyDict

/-- Read the dict object at reference `r`. -/
def storeGet (s : Store) (r : Nat) : PyDict :=
  s.getD r []

/-- Overwrite the dict object at reference `r`. -/
def storeSet (s : Store) (r : Nat) (d : PyDict) : Store :=
  s.set r d

/-- Allocate a fresh dict object (`state = {}` makes a new one). -/
def storeAlloc (s : Store) (d : PyDict) : Store × Nat :=
  (s ++ [d], s.length)

/-- The ambient environment `handle_exception` runs in: the currently
handled exception (if any), what `_get_sys_info` returns, the machine
facilities, and the transport. -/
structure HXEnv : Type where
  ambient : Option Triple
  sysInfo : PyVal
  machineEnv : MachineEnv
  transport : TransportEnv

/-- The arguments of one `handle_exception` call.  `stateRef = none` is
the default `state=None`; `tags` is the raw Python value passed
(`PyVal.vNone` for the default). -/
structure HXInput : Type where
  excInfoArg : Option Triple
  stateRef : Option Nat
  tags : PyVal
  return_feedback_urls : Bool
  dry_run : Bool

/-- The `send_error_args` bundle built at lines 180-186, with `state`
resolved to the contents of the state dict at that point. -/
structure SendErrorArgs : Type where
  error_type : String
  error_message : String
  traceback : List TbEntry
  environment : String
  state : PyDict
  tags : List PyVal
  return_feedback_urls : Bool

/-- What a `handle_exception` call returns when it returns: the dry-run
bundle or the parsed server response. -/
inductive HXValue : Type where
  | bundle : SendErrorArgs → HXValue
  | response : PyVal → HXValue

/-- The observable outcome of one `handle_exception` call: its return
value or raised exception, the heap afterwards, and how many `urlopen`
calls were made. -/
structure HXOutcome : Type where
  result : Except PyErr HXValue
  store : Store
  urlopenCalls : Nat

/-- Lines 158-162: `if 'sys' not in state: state['sys'] = self._get_sys_info()`.
`_get_sys_info` only reads `sys` attributes and cannot fail, so the
`except` arm of the surrounding `try` is dead. -/
def addSysState (sysInfo : PyVal) (d : PyDict) : PyDict :=
  if dictContains d "sys" then d else dictSet d "sys" sysInfo

/-- Lines 163-167: `if 'machine' not in state: try: state['machine'] =
self._get_machine_info() except Exception as e: state['machine'] =
'<Unable to get machine: %e>' % e`.  The `'%e'` conversion requires a
number, so applying it to the exception `e` itself raises `TypeError`:
when the collector fails, the except arm raises instead of writing the
intended placeholder. -/
def addMachineState (menv : MachineEnv) (d : PyDict) : Except PyErr PyDict :=
  if dictContains d "machine" then Except.ok d
  else
    match get_machine_info menv with
    | Except.ok m => Except.ok (dictSet d "machine" (PyVal.vDict m))
    | Except.error _ =>
        Except.error (PyErr.typeError "must be real number, not Exception")

/-- Everything `handle_exception` (lines 113-186) does before the
`dry_run` branch: resolve `exc_info`, compute the unused `msg`, wrap
non-list `tags`, walk the traceback, install `sys`/`machine` into the
state dict, classify the error, and assemble `send_error_args`.
Returns the bundle (or the exception raised on the way) and the heap.
The line-127 guard `if exc_info is None: raise StackSentinelError(...)`
is unreachable — `resolveExcInfo` always yields a triple, mirroring
`sys.exc_info()` returning `(None, None, None)` rather than `None` —
so the no-exception path instead reaches
`str(etype.__name__)` at line 174 with `etype = None` and raises
`AttributeError`. -/
def prepare (client : Client) (env : HXEnv) (store0 : Store) (inp : HXInput) :
    Except PyErr SendErrorArgs × Store :=
  let excInfo := resolveExcInfo inp.excInfoArg env.ambient
  let msg := computeMsg excInfo.value
  let tags := normalizeTagsCode inp.tags
  let new_tb := walkTb none 0 excInfo.tb
  let (store1, r) :=
    match inp.stateRef with
    | none => storeAlloc store0 []
    | some r => (store0, r)
  let store2 := storeSet store1 r (addSysState env.sysInfo (storeGet store1 r))
  match addMachineState env.machineEnv (storeGet store2 r) with
  | Except.error e => (Except.error e, store2)
  | Except.ok d3 =>
    let store3 := storeSet store2 r d3
    -- line 169-170 `if tags is None: tags = []`: dead, `tags` is already a list
    match excInfo.etype with
    | none =>
        (Except.error
          (PyErr.attributeError "'NoneType' object has no attribute '__name__'"),
         store3)
    | some tn =>
        let _ := msg
        (Except.ok
          { error_type := tn
            error_message := pyStrOfValue excInfo.value
            traceback := new_tb
            environment := client.environment
            state := storeGet store3 r
            tags := client.tags ++ tags
            return_feedback_urls := inp.return_feedback_urls }, store3)

/-- `StackSentinelClient.handle_exception` (lines 113-190): build
`send_error_args`, then either return it (`dry_run`) or pass exactly
those arguments to `send_error`. -/
def handleException (client : Client) (env : HXEnv) (store0 : Store)
    (inp : HXInput) : HXOutcome :=
  match prepare client env store0 inp with
  | (Except.error e, st) => { result := Except.error e, store := st, urlopenCalls := 0 }
  | (Except.ok args, st) =>
      if inp.dry_run then
        { result := Except.ok (HXValue.bundle args), store := st, urlopenCalls := 0 }
      else
        let rc :=
          send_error client env.transport args.error_type args.error_message
            args.traceback args.environment args.state (PyVal.vList args.tags)
            args.return_feedback_urls
        { result := rc.fst.map HXValue.response, store := st, urlopenCalls := rc.snd }

/-- An application exception object, with an identity (`id`) so that
"re-raises exactly that original exception object" is expressible. -/
structure ExnObj : Type where
  id : Nat
  etypeName : String
  value : ExcValue
  tb : List Frame

/-- The `sys.exc_info()` triple observed while `e` is being handled. -/
def exnTriple (e : ExnObj) : Triple :=
  { etype := some e.etypeName, value := some e.value, tb := e.tb }

/-- An exception propagating out of the middleware: the application's
original exception object, or one raised by the reporting call itself. -/
inductive MwExn : Type where
  | orig : ExnObj → MwExn
  | fromReport : PyErr → MwExn

/-- Behaviour of the wrapped WSGI application for one request: it raises
at invocation, returns `None`, or returns a response iterable that
yields `items` and then either finishes or raises, and that may or may
not expose a `close` method. -/
inductive AppBehavior : Type where
  | raises : ExnObj → AppBehavior
  | returnsNone : AppBehavior
  | returns : List String → Option ExnObj → Bool → AppBehavior

/-- The observable run of `StackSentinelMiddleware.__call__` when the
server drives the returned generator to completion. -/
structure MwResult : Type where
  yielded : List String
  outcome : Option MwExn
  reports : List PyDict
  closeCalls : Nat
  store : Store

/-- The middleware's reporting call
`self.client.handle_exception(state={'wsgi_environ': environ})`,
made while `e` is the currently handled exception: a fresh state dict
is allocated and all other arguments are left at their defaults. -/
def reportWith (client : Client) (env : HXEnv) (store : Store) (e : ExnObj)
    (environ : PyVal) : HXOutcome :=
  let (store1, r) := storeAlloc store [("wsgi_environ", environ)]
  handleException client { env with ambient := some (exnTriple e) } store1
    { excInfoArg := none
      stateRef := some r
      tags := PyVal.vNone
      return_feedback_urls := false
      dry_run := false }

/-- `StackSentinelMiddleware.__call__` (lines 293-312), driven to
completion.  If invoking the app raises, report then `raise` — but an
exception escaping the reporting call propagates instead of the
original, and the `finally` of the second `try` is never entered
(`result` is still `None` then anyway).  If the app returns, iterate;
on an iteration failure report then `raise` likewise; the `finally`
always runs on leaving the second `try` and calls `result.close()`
when the attribute exists. -/
def middlewareRun (client : Client) (env : HXEnv) (store : Store)
    (app : AppBehavior) (environ : PyVal) : MwResult :=
  match app with
  | AppBehavior.raises e =>
      let rep := reportWith client env store e environ
      match rep.result with
      | Except.ok _ =>
          { yielded := [], outcome := some (MwExn.orig e),
            reports := [[("wsgi_environ", environ)]], closeCalls := 0,
            store := rep.store }
      | Except.error pe =>
          { yielded := [], outcome := some (MwExn.fromReport pe),
            reports := [[("wsgi_environ", environ)]], closeCalls := 0,
            store := rep.store }
  | AppBehavior.returnsNone =>
      { yielded := [], outcome := none, reports := [], closeCalls := 0,
        store := store }
  | AppBehavior.returns items iterFail hasClose =>
      let closes := if hasClose then 1 else 0
      match iterFail with
      | none =>
          { yielded := items, outcome := none, reports := [],
            closeCalls := closes, store := store }
      | some e =>
          let rep := reportWith client env store e environ
          match rep.result with
          | Except.ok _ =>
              { yielded := items, outcome := some (MwExn.orig e),
                reports := [[("wsgi_environ", environ)]], closeCalls := closes,
                store := rep.store }
          | Except.error pe =>
              { yielded := items, outcome := some (MwExn.fromReport pe),
                reports := [[("wsgi_environ", environ)]], closeCalls := closes,
                store := rep.store }

/-! ### Concrete environments shared by several developments -/

/-- A machine environment in which every facility works. -/
def menvOk : MachineEnv :=
  { socketAvailable := true
    gethostname := Except.ok "host01"
    environSnapshot := Except.ok [("PATH", PyVal.vStr "/usr/bin")]
    platformAvailable := true
    uname := Except.ok (PyVal.vStr "Linux")
    node := Except.ok (PyVal.vStr "host01")
    libc_ver := Except.ok (PyVal.vStr "glibc 2.31")
    version := Except.ok (PyVal.vStr "#1 SMP")
    dist := Except.ok (PyVal.vStr "debian") }

/-- A transport on which the send succeeds and the response parses. -/
def tenvOk : TransportEnv :=
  { http := HttpOutcome.success "\x7b\x7d"
    loads := fun _ => Except.ok (PyVal.vDict []) }

/-- A concretely configured client with one default tag. -/
def clientC : Client :=
  mkClient "acct" "proj" "production" (some [PyVal.vStr "base"])
    "https://api.stacksentinel.com/api/v1/insert"

/-- The value of a concrete `ZeroDivisionError`. -/
def excValueC : ExcValue :=
  { args := [PyVal.vStr "division by zero"]
    strText := "division by zero"
    reprText := "ZeroDivisionError('division by zero')" }

/-- A concrete in-flight exception triple. -/
def tripleC : Triple :=
  { etype := some "ZeroDivisionError"
    value := some excValueC
    tb := [{ lineno := 2, filename := "main.py", name := "f" }] }

/-- A fully working environment with `tripleC` being handled. -/
def hxenvC : HXEnv :=
  { ambient := some tripleC
    sysInfo := PyVal.vStr "sysinfo"
    machineEnv := menvOk
    transport := tenvOk }

/-- The same environment with no exception being handled. -/
def hxenvNoExc : HXEnv := { hxenvC with ambient := none }

/-! ### Dictionary and store lemmas -/

theorem dictLookup_dictSet_self (d : PyDict) (key : String) (v : PyVal) :
    dictLookup (dictSet d key v) key = some v := by
  induction d with
  | nil => simp [dictSet, dictLookup]
  | cons p rest ih =>
      obtain ⟨k, w⟩ := p
      by_cases h : k = key
      · subst h; simp [dictSet, dictLookup]
      · simp [dictSet, dictLookup, h, ih]

theorem dictLookup_dictSet_ne (d : PyDict) (key k : String) (v : PyVal)
    (h : k ≠ key) : dictLookup (dictSet d key v) k = dictLookup d k := by
  induction d with
  | nil => simp [dictSet, dictLookup, Ne.symm h]
  | cons p rest ih =>
      obtain ⟨k0, w⟩ := p
      by_cases h0 : k0 = key
      · subst h0
        simp [dictSet, dictLookup, Ne.symm h]
      · by_cases h1 : k0 = k
        · subst h1; simp [dictSet, dictLookup, h0]
        · simp [dictSet, dictLookup, h0, h1, ih]

theorem length_storeSet (s : Store) (r : Nat) (d : PyDict) :
    (storeSet s r d).length = s.length := by
  simp [storeSet]

theorem storeGet_storeSet_self (s : Store) (r : Nat) (d : PyDict)
    (h : r < s.length) : storeGet (storeSet s r d) r = d := by
  induction s generalizing r with
  | nil => simp at h
  | cons a t ih =>
      cases r with
      | zero => simp [storeGet, storeSet, List.getD]
      | succ n =>
          simp only [storeSet, List.set, storeGet, List.getD] at *
          exact ih n (by simpa using h)

/-! ### `addSysState` / `addMachineState` lemmas -/

theorem addSysState_of_present (sysInfo : PyVal) (d : PyDict) (v : PyVal)
    (h : dictLookup d "sys" = some v) : addSysState sysInfo d = d := by
  simp [addSysState, dictContains, h]

theorem dictLookup_addSysState_ne (sysInfo : PyVal) (d : PyDict) (k : String)
    (h : k ≠ "sys") : dictLookup (addSysState sysInfo d) k = dictLookup d k := by
  unfold addSysState
  by_cases hc : dictContains d "sys" = true
  · simp [hc]
  · simp [hc, dictLookup_dictSet_ne _ _ _ _ h]

theorem dictLookup_addSysState_absent (sysInfo : PyVal) (d : PyDict)
    (h : dictLookup d "sys" = none) :
    dictLookup (addSysState sysInfo d) "sys" = some sysInfo := by
  simp [addSysState, dictContains, h, dictLookup_dictSet_self]

theorem addMachineState_of_present (menv : MachineEnv) (d : PyDict) (v : PyVal)
    (h : dictLookup d "machine" = some v) : addMachineState menv d = Except.ok d := by
  simp [addMachineState, dictContains, h]

theorem addMachineState_ok (menv : MachineEnv) (d : PyDict)
    (hm : ∃ m, get_machine_info menv = Except.ok m) :
    ∃ d3, addMachineState menv d = Except.ok d3 := by
  obtain ⟨m, hm⟩ := hm
  unfold addMachineState
  by_cases hc : dictContains d "machine" = true
  · exact ⟨d, by simp [hc]⟩
  · exact ⟨dictSet d "machine" (PyVal.vDict m), by simp [hc, hm]⟩

theorem dictLookup_addMachineState_ne (menv : MachineEnv) (d d3 : PyDict)
    (k : String) (hok : addMachineState menv d = Except.ok d3)
    (h : k ≠ "machine") : dictLookup d3 k = dictLookup d k := by
  unfold addMachineState at hok
  by_cases hc : dictContains d "machine" = true
  · simp [hc] at hok; subst hok; rfl
  · simp [hc] at hok
    cases hg : get_machine_info menv with
    | ok m =>
        rw [hg] at hok
        simp at hok
        subst hok
        exact dictLookup_dictSet_ne _ _ _ _ h
    | error e => rw [hg] at hok; simp at hok

theorem dictLookup_addMachineState_absent (menv : MachineEnv) (d : PyDict)
    (m : PyDict) (hg : get_machine_info menv = Except.ok m)
    (h : dictLookup d "machine" = none) :
    addMachineState menv d = Except.ok (dictSet d "machine" (PyVal.vDict m)) := by
  simp [addMachineState, dictContains, h, hg]

/-! ### The encode step never fails with `_serialize_object` as default -/

/-- Whether an `Except` computation succeeded. -/
def isOkE {ε α : Type} : Except ε α → Bool
  | Except.ok _ => true
  | Except.error _ => false

theorem exists_ok_of_isOkE {ε α : Type} (e : Except ε α) (h : isOkE e = true) :
    ∃ a, e = Except.ok a := by
  cases e with
  | ok a => exact ⟨a, rfl⟩
  | error _ => simp [isOkE] at h

mutual

theorem dumpsVal_isOk : (v : PyVal) → isOkE (dumpsVal serializeDefaultE v) = true
  | PyVal.vNone => by simp [dumpsVal, isOkE]
  | PyVal.vBool b => by simp [dumpsVal, isOkE]
  | PyVal.vInt n => by simp [dumpsVal, isOkE]
  | PyVal.vStr s => by simp [dumpsVal, isOkE]
  | PyVal.vList l => by
      have h := dumpsList_isOk l
      obtain ⟨s, hs⟩ := exists_ok_of_isOkE _ h
      simp [dumpsVal, hs, isOkE]
  | PyVal.vDict d => by
      have h := dumpsDict_isOk d
      obtain ⟨s, hs⟩ := exists_ok_of_isOkE _ h
      simp [dumpsVal, hs, isOkE]
  | PyVal.vObj o => by simp [dumpsVal, serializeDefaultE, isOkE]

theorem dumpsList_isOk : (l : List PyVal) → isOkE (dumpsList serializeDefaultE l) = true
  | [] => by simp [dumpsList, isOkE]
  | v :: rest => by
      obtain ⟨s, hs⟩ := exists_ok_of_isOkE _ (dumpsVal_isOk v)
      obtain ⟨ss, hss⟩ := exists_ok_of_isOkE _ (dumpsList_isOk rest)
      simp [dumpsList, hs, hss, isOkE]

theorem dumpsDict_isOk : (d : List (String × PyVal)) → isOkE (dumpsDict serializeDefaultE d) = true
  | [] => by simp [dumpsDict, isOkE]
  | (k, v) :: rest => by
      obtain ⟨s, hs⟩ := exists_ok_of_isOkE _ (dumpsVal_isOk v)
      obtain ⟨ss, hss⟩ := exists_ok_of_isOkE _ (dumpsDict_isOk rest)
      simp [dumpsDict, hs, hss, isOkE]

end

theorem dumpsVal_serialize_ok (v : PyVal) :
    ∃ s, dumpsVal serializeDefaultE v = Except.ok s :=
  exists_ok_of_isOkE _ (dumpsVal_isOk v)

theorem generate_request_ok (client : Client)
    (environment error_message error_type : String) (rfu : Bool)
    (state : PyDict) (tags : PyVal) (tb : List TbEntry) :
    ∃ p, generate_request client environment error_message error_type rfu
      state tags tb = Except.ok p := by
  obtain ⟨s, hs⟩ := dumpsVal_serialize_ok
    (envelopeVal client environment error_message error_type rfu state tags tb)
  apply exists_ok_of_isOkE
  unfold generate_request
  rw [hs]
  rfl

/-! ### Transport helpers -/

theorem send_error_of_netError (client : Client) (tenv : TransportEnv)
    (et em : String) (tb : List TbEntry) (envr : String) (st : PyDict)
    (tags : PyVal) (rfu : Bool) (er : PyErr)
    (h : tenv.http = HttpOutcome.netError er) :
    (send_error client tenv et em tb envr st tags rfu).fst = Except.error er := by
  obtain ⟨p, hp⟩ := generate_request_ok client envr em et rfu st tags tb
  unfold send_error
  rw [hp, h]

theorem send_error_of_success (client : Client) (tenv : TransportEnv)
    (et em : String) (tb : List TbEntry) (envr : String) (st : PyDict)
    (tags : PyVal) (rfu : Bool) (body : String)
    (h : tenv.http = HttpOutcome.success body) :
    (send_error client tenv et em tb envr st tags rfu).fst = tenv.loads body := by
  obtain ⟨p, hp⟩ := generate_request_ok client envr em et rfu st tags tb
  unfold send_error
  rw [hp, h]

/-! ### `prepare` / `handleException` structural lemmas -/

theorem prepare_dry_irrel (client : Client) (env : HXEnv) (store0 : Store)
    (inp : HXInput) (b : Bool) :
    prepare client env store0 { inp with dry_run := b } =
      prepare client env store0 inp := rfl

theorem handleException_store_eq (client : Client) (env : HXEnv)
    (store0 : Store) (inp : HXInput) :
    (handleException client env store0 inp).store =
      (prepare client env store0 inp).snd := by
  unfold handleException
  rcases hp : prepare client env store0 inp with ⟨res, st⟩
  cases res with
  | error e => simp
  | ok args =>
      by_cases hdry : inp.dry_run = true
      · simp [hdry]
      · simp [hdry]

theorem handleException_bundle_eq (client : Client) (env : HXEnv)
    (store0 : Store) (inp : HXInput) (b : SendErrorArgs)
    (h : (handleException client env store0 inp).result
      = Except.ok (HXValue.bundle b)) :
    (prepare client env store0 inp).fst = Except.ok b := by
  unfold handleException at h
  rcases hp : prepare client env store0 inp with ⟨res, st⟩
  rw [hp] at h
  cases res with
  | error e => simp at h
  | ok args =>
      by_cases hdry : inp.dry_run = true
      · simp [hdry] at h
        rw [h]
      · simp [hdry] at h
        rcases hse : (send_error client env.transport args.error_type
            args.error_message args.traceback args.environment args.state
            (PyVal.vList args.tags) args.return_feedback_urls).fst with e | v
        · rw [hse] at h; simp [Except.map] at h
        · rw [hse] at h; simp [Except.map] at h

theorem prepare_state_effect (client : Client) (env : HXEnv) (store0 : Store)
    (inp : HXInput) (r : Nat) (href : inp.stateRef = some r)
    (hr : r < store0.length) :
    (prepare client env store0 inp).snd.length = store0.length ∧
    ∃ df, storeGet (prepare client env store0 inp).snd r = df ∧
      (∀ args, (prepare client env store0 inp).fst = Except.ok args →
        args.state = df) ∧
      (addMachineState env.machineEnv
          (addSysState env.sysInfo (storeGet store0 r)) = Except.ok df ∨
       ∃ e, addMachineState env.machineEnv
          (addSysState env.sysInfo (storeGet store0 r)) = Except.error e ∧
          df = addSysState env.sysInfo (storeGet store0 r)) := by
  have hg2 := storeGet_storeSet_self store0 r
    (addSysState env.sysInfo (storeGet store0 r)) hr
  have hlen1 := length_storeSet store0 r
    (addSysState env.sysInfo (storeGet store0 r))
  simp only [prepare, href, hg2]
  cases hms : addMachineState env.machineEnv
      (addSysState env.sysInfo (storeGet store0 r)) with
  | error e =>
      refine ⟨hlen1, addSysState env.sysInfo (storeGet store0 r), hg2, ?_, ?_⟩
      · intro args hargs; simp at hargs
      · exact Or.inr ⟨e, rfl, rfl⟩
  | ok d3 =>
      have hr2 : r < (storeSet store0 r
          (addSysState env.sysInfo (storeGet store0 r))).length := by
        rw [hlen1]; exact hr
      have hg3 := storeGet_storeSet_self
        (storeSet store0 r (addSysState env.sysInfo (storeGet store0 r))) r d3 hr2
      have hlen2 := length_storeSet
        (storeSet store0 r (addSysState env.sysInfo (storeGet store0 r))) r d3
      cases hty : (resolveExcInfo inp.excInfoArg env.ambient).etype with
      | none =>
          refine ⟨by rw [hlen2, hlen1], d3, hg3, ?_, Or.inl rfl⟩
          intro args hargs; simp at hargs
      | some tn =>
          refine ⟨by rw [hlen2, hlen1], d3, hg3, ?_, Or.inl rfl⟩
          intro args hargs
          simp at hargs
          rw [← hargs, hg3]

theorem addMachineState_ne_error (menv : MachineEnv) (d : PyDict) (e : PyErr)
    (hm : ∃ m, get_machine_info menv = Except.ok m)
    (h : addMachineState menv d = Except.error e) : False := by
  obtain ⟨m, hmo⟩ := hm
  unfold addMachineState at h
  by_cases hc : dictContains d "machine" = true
  · simp [hc] at h
  · simp [hc, hmo] at h

theorem prepare_ok_spec (client : Client) (env : HXEnv) (store0 : Store)
    (inp : HXInput) (tn : String)
    (hty : (resolveExcInfo inp.excInfoArg env.ambient).etype = some tn)
    (hm : ∃ m, get_machine_info env.machineEnv = Except.ok m) :
    ∃ st stf, prepare client env store0 inp =
      (Except.ok
        { error_type := tn
          error_message := pyStrOfValue (resolveExcInfo inp.excInfoArg env.ambient).value
          traceback := walkTb none 0 (resolveExcInfo inp.excInfoArg env.ambient).tb
          environment := client.environment
          state := stf
          tags := client.tags ++ normalizeTagsCode inp.tags
          return_feedback_urls := inp.return_feedback_urls }, st) := by
  cases hsr : inp.stateRef with
  | none =>
      simp only [prepare, hsr, storeAlloc]
      cases hms : addMachineState env.machineEnv
          (storeGet (storeSet (store0 ++ [[]]) store0.length
            (addSysState env.sysInfo (storeGet (store0 ++ [[]]) store0.length)))
            store0.length) with
      | error e => exact (addMachineState_ne_error _ _ _ hm hms).elim
      | ok d3 =>
          rw [hty]
          exact ⟨_, _, rfl⟩
  | some r =>
      simp only [prepare, hsr]
      cases hms : addMachineState env.machineEnv
          (storeGet (storeSet store0 r
            (addSysState env.sysInfo (storeGet store0 r))) r) with
      | error e => exact (addMachineState_ne_error _ _ _ hm hms).elim
      | ok d3 =>
          rw [hty]
          exact ⟨_, _, rfl⟩

theorem handleException_ok_of_success (client : Client) (env : HXEnv)
    (store0 : Store) (inp : HXInput) (tn body : String) (v : PyVal)
    (hty : (resolveExcInfo inp.excInfoArg env.ambient).etype = some tn)
    (hm : ∃ m, get_machine_info env.machineEnv = Except.ok m)
    (hhttp : env.transport.http = HttpOutcome.success body)
    (hloads : env.transport.loads body = Except.ok v)
    (hdry : inp.dry_run = false) :
    ∃ w, (handleException client env store0 inp).result = Except.ok w := by
  obtain ⟨st, stf, hp⟩ := prepare_ok_spec client env store0 inp tn hty hm
  unfold handleException
  rw [hp]
  simp only [hdry, Bool.false_eq_true, if_false]
  rw [send_error_of_success client env.transport _ _ _ _ _ _ _ body hhttp, hloads]
  exact ⟨HXValue.response v, rfl⟩

theorem reportWith_result_ok (client : Client) (env : HXEnv) (store : Store)
    (e : ExnObj) (environ : PyVal) (body : String) (v : PyVal)
    (hm : ∃ m, get_machine_info env.machineEnv = Except.ok m)
    (hhttp : env.transport.http = HttpOutcome.success body)
    (hloads : env.transport.loads body = Except.ok v) :
    ∃ w, (reportWith client env store e environ).result = Except.ok w := by
  unfold reportWith
  simp only [storeAlloc]
  exact handleException_ok_of_success client _ _ _ e.etypeName body v rfl hm
    hhttp hloads rfl

theorem reportWith_result_netError (client : Client) (env : HXEnv)
    (store : Store) (e : ExnObj) (environ : PyVal) (er : PyErr)
    (hm : ∃ m, get_machine_info env.machineEnv = Except.ok m)
    (hhttp : env.transport.http = HttpOutcome.netError er) :
    (reportWith client env store e environ).result = Except.error er := by
  unfold reportWith
  simp only [storeAlloc]
  obtain ⟨st, stf, hp⟩ := prepare_ok_spec client
    { env with ambient := some (exnTriple e) }
    (store ++ [[("wsgi_environ", environ)]])
    { excInfoArg := none
      stateRef := some store.length
      tags := PyVal.vNone
      return_feedback_urls := false
      dry_run := false } e.etypeName rfl hm
  unfold handleException
  rw [hp]
  simp only [Bool.false_eq_true, if_false]
  rw [send_error_of_netError client env.transport _ _ _ _ _ _ _ er hhttp]
  rfl

/-! ### Claim C4 -/

/-- C4: when the server replies with HTTP 400, `send_error` raises
`StackSentinelError` whose message is the raw response body; any other
non-2xx `HTTPError` propagates unconverted. -/
theorem send_error_http_error_mapping (client : Client) (tenv : TransportEnv)
    (et em : String) (tb : List TbEntry) (envr : String) (st : PyDict)
    (tags : PyVal) (rfu : Bool) (code : Nat) (body : String) :
    (tenv.http = HttpOutcome.httpError 400 body →
      (send_error client tenv et em tb envr st tags rfu).fst
        = Except.error (PyErr.stackSentinelError body))
    ∧ (tenv.http = HttpOutcome.httpError code body → code ≠ 400 →
      (send_error client tenv et em tb envr st tags rfu).fst
        = Except.error (PyErr.httpError code body)) := by
  obtain ⟨p, hp⟩ := generate_request_ok client envr em et rfu st tags tb
  constructor
  · intro h
    unfold send_error
    rw [hp, h]
    rfl
  · intro h hne
    unfold send_error
    rw [hp, h]
    simp [hne]

/-- A transport whose server replies 400 with body `"bad token"`. -/
def tenv400 : TransportEnv :=
  { http := HttpOutcome.httpError 400 "bad token"
    loads := fun _ => Except.ok PyVal.vNone }

/-- A transport whose server replies 500. -/
def tenv500 : TransportEnv :=
  { http := HttpOutcome.httpError 500 "server error"
    loads := fun _ => Except.ok PyVal.vNone }

theorem send_error_http_error_mapping_witness :
    (send_error clientC tenv400 "TypeError" "boom" [] "production" []
      PyVal.vNone false).fst
      = Except.error (PyErr.stackSentinelError "bad token")
    ∧ (send_error clientC tenv500 "TypeError" "boom" [] "production" []
      PyVal.vNone false).fst
      = Except.error (PyErr.httpError 500 "server error") :=
  ⟨(send_error_http_error_mapping clientC tenv400 "TypeError" "boom" []
      "production" [] PyVal.vNone false 500 "bad token").1 rfl,
   (send_error_http_error_mapping clientC tenv500 "TypeError" "boom" []
      "production" [] PyVal.vNone false 500 "server error").2 rfl (by decide)⟩

/-! ### Claims C5 and C9 (middleware) -/

/-- The application exception of the middleware scenarios. -/
def exnApp : ExnObj :=
  { id := 1
    etypeName := "ValueError"
    value := { args := [PyVal.vStr "boom"], strText := "boom",
               reprText := "ValueError('boom')" }
    tb := [{ lineno := 7, filename := "app.py", name := "view" }] }

/-- A fully working environment except that the network is down, so the
reporting call inside the middleware raises `URLError`. -/
def hxenvNetDown : HXEnv :=
  { hxenvC with transport :=
      { http := HttpOutcome.netError (PyErr.other "URLError" "connection refused")
        loads := fun _ => Except.ok PyVal.vNone } }

/-- C5 counterexample: when the app raises and the reporting call itself
fails (network down), the middleware propagates the reporting failure,
not the original application exception. -/
theorem middleware_report_failure_masks_original :
    (middlewareRun clientC hxenvNetDown [] (AppBehavior.raises exnApp)
      (PyVal.vStr "env")).outcome
      = some (MwExn.fromReport (PyErr.other "URLError" "connection refused"))
    ∧ (middlewareRun clientC hxenvNetDown [] (AppBehavior.raises exnApp)
      (PyVal.vStr "env")).outcome
      ≠ some (MwExn.orig exnApp) := by
  have hrep := reportWith_result_netError clientC hxenvNetDown [] exnApp
    (PyVal.vStr "env") (PyErr.other "URLError" "connection refused") ⟨_, rfl⟩ rfl
  have h1 : (middlewareRun clientC hxenvNetDown [] (AppBehavior.raises exnApp)
      (PyVal.vStr "env")).outcome
      = some (MwExn.fromReport (PyErr.other "URLError" "connection refused")) := by
    simp only [middlewareRun]
    rw [hrep]
  refine ⟨h1, ?_⟩
  rw [h1]
  simp

/-- C5 (amended): whenever the reporting call returns normally, the
middleware re-raises the original exception object unchanged, both for
an exception at invocation and for one during response iteration. -/
theorem middleware_reraises_original_when_report_ok
    (client : Client) (env : HXEnv) (store : Store) (e : ExnObj)
    (environ : PyVal) (items : List String) (hasClose : Bool)
    (hOk : ∃ w, (reportWith client env store e environ).result = Except.ok w) :
    (middlewareRun client env store (AppBehavior.raises e) environ).outcome
      = some (MwExn.orig e)
    ∧ (middlewareRun client env store
        (AppBehavior.returns items (some e) hasClose) environ).outcome
      = some (MwExn.orig e) := by
  obtain ⟨w, hw⟩ := hOk
  constructor
  · simp only [middlewareRun]
    rw [hw]
  · simp only [middlewareRun]
    rw [hw]

theorem middleware_reraises_original_when_report_ok_witness :
    (middlewareRun clientC hxenvC [] (AppBehavior.raises exnApp)
      (PyVal.vStr "env")).outcome = some (MwExn.orig exnApp)
    ∧ (middlewareRun clientC hxenvC []
        (AppBehavior.returns ["chunk"] (some exnApp) true)
        (PyVal.vStr "env")).outcome = some (MwExn.orig exnApp) :=
  middleware_reraises_original_when_report_ok clientC hxenvC [] exnApp
    (PyVal.vStr "env") ["chunk"] true
    (reportWith_result_ok clientC hxenvC [] exnApp (PyVal.vStr "env")
      "\x7b\x7d" (PyVal.vDict []) ⟨_, rfl⟩ rfl rfl)

/-- C9: whenever the app returns a response object exposing `close`, the
middleware calls it exactly once, on normal completion as well as on an
iteration failure (whether or not the reporting call succeeds); when the
app raises at invocation there is no response object and `close` is
never called. -/
theorem middleware_close_called_exactly_once (client : Client) (env : HXEnv)
    (store : Store) (items : List String) (iterFail : Option ExnObj)
    (environ : PyVal) :
    (middlewareRun client env store (AppBehavior.returns items iterFail true)
      environ).closeCalls = 1
    ∧ (∀ e, (middlewareRun client env store (AppBehavior.raises e)
      environ).closeCalls = 0)
    ∧ (middlewareRun client env store AppBehavior.returnsNone
      environ).closeCalls = 0 := by
  refine ⟨?_, ?_, ?_⟩
  · cases iterFail with
    | none => simp [middlewareRun]
    | some e =>
        simp only [middlewareRun]
        cases hrr : (reportWith client env store e environ).result <;> simp
  · intro e
    simp only [middlewareRun]
    cases hrr : (reportWith client env store e environ).result <;> simp
  · simp [middlewareRun]

/-! ### Claim C2 (machine-info collector) -/

/-- `menvOk` except that `platform.dist()` raises (as it does on every
Python ≥ 3.8, where `platform.dist` no longer exists). -/
def menvDistBroken : MachineEnv :=
  { menvOk with dist := Except.error (PyErr.other "AttributeError"
      "module 'platform' has no attribute 'dist'") }

/-- C2 counterexample: a failure of the `dist` sub-field propagates out
of `_get_machine_info` instead of being replaced by a placeholder
string inside the mapping entry. -/
theorem get_machine_info_subfield_failure_propagates :
    get_machine_info menvDistBroken
      = Except.error (PyErr.other "AttributeError"
          "module 'platform' has no attribute 'dist'") := rfl

/-- C2 (amended): only the `hostname` sub-field is protected — its
failure (or the absence of the socket module) is caught and replaced by
a placeholder string in the `hostname` entry and never makes the
collector fail; provided the environment snapshot and the `platform`
descriptors succeed, the collector returns the mapping. -/
theorem get_machine_info_hostname_failure_caught (menv : MachineEnv)
    (henv : ∃ d, menv.environSnapshot = Except.ok d)
    (hplat : menv.platformAvailable = true →
      (∃ u, menv.uname = Except.ok u) ∧ (∃ n, menv.node = Except.ok n) ∧
      (∃ l, menv.libc_ver = Except.ok l) ∧ (∃ v, menv.version = Except.ok v) ∧
      (∃ w, menv.dist = Except.ok w)) :
    ∃ m, get_machine_info menv = Except.ok m
      ∧ dictLookup m "hostname" = some (PyVal.vStr
          (if menv.socketAvailable then
            match menv.gethostname with
            | Except.ok h => h
            | Except.error e => "<Could not determine: " ++ pyErrRepr e ++ ">"
          else "<socket module not available>")) := by
  obtain ⟨sa, gh, es, pa, un, nd, lv, vv, dv⟩ := menv
  obtain ⟨d, hd⟩ := henv
  simp only at hd
  subst hd
  cases pa with
  | false =>
      cases sa with
      | true =>
          cases gh with
          | ok h => exact ⟨_, rfl, rfl⟩
          | error e => exact ⟨_, rfl, rfl⟩
      | false => exact ⟨_, rfl, rfl⟩
  | true =>
      obtain ⟨⟨u, hu⟩, ⟨n, hn⟩, ⟨l, hl⟩, ⟨v, hv⟩, ⟨w, hw⟩⟩ := hplat rfl
      simp only at hu hn hl hv hw
      subst hu hn hl hv hw
      cases sa with
      | true =>
          cases gh with
          | ok h => exact ⟨_, rfl, rfl⟩
          | error e => exact ⟨_, rfl, rfl⟩
      | false => exact ⟨_, rfl, rfl⟩

/-- `menvOk` except that `socket.gethostname()` raises. -/
def menvHostnameBroken : MachineEnv :=
  { menvOk with gethostname := Except.error (PyErr.other "OSError"
      "gethostname failed") }

theorem get_machine_info_hostname_failure_caught_witness :
    ∃ m, get_machine_info menvHostnameBroken = Except.ok m
      ∧ dictLookup m "hostname" = some (PyVal.vStr
          (if menvHostnameBroken.socketAvailable then
            match menvHostnameBroken.gethostname with
            | Except.ok h => h
            | Except.error e => "<Could not determine: " ++ pyErrRepr e ++ ">"
          else "<socket module not available>")) :=
  get_machine_info_hostname_failure_caught menvHostnameBroken ⟨_, rfl⟩
    (fun _ => ⟨⟨_, rfl⟩, ⟨_, rfl⟩, ⟨_, rfl⟩, ⟨_, rfl⟩, ⟨_, rfl⟩⟩)

/-! ### Claim C1 -/

/-- C1 (code bug): calling `handle_exception` with `exc_info` omitted
while no exception is being handled does not raise `StackSentinelError`.
`sys.exc_info()` returns `(None, None, None)` — never `None` — so the
line-127 guard cannot fire, and the call instead reaches
`str(etype.__name__)` with `etype = None` and raises `AttributeError`
(and makes no network call). -/
theorem handle_exception_no_active_exception_bug :
    (handleException clientC hxenvNoExc []
      { excInfoArg := none, stateRef := none, tags := PyVal.vNone,
        return_feedback_urls := false, dry_run := false }).result
      = Except.error (PyErr.attributeError
          "'NoneType' object has no attribute '__name__'")
    ∧ (handleException clientC hxenvNoExc []
      { excInfoArg := none, stateRef := none, tags := PyVal.vNone,
        return_feedback_urls := false, dry_run := false }).urlopenCalls = 0 :=
  ⟨rfl, rfl⟩

/-! ### Claim C3 -/

/-- C3 (code bug): with `tags` omitted (`None`), the envelope tags are
the client's default tags with a `None` element appended — not the
default tags alone.  `if not isinstance(tags, list): tags = [tags]`
turns `None` into `[None]` before the (now dead) `if tags is None:
tags = []` check can replace it with the empty list. -/
theorem handle_exception_none_tags_appends_none :
    ∃ b, (handleException clientC hxenvC []
      { excInfoArg := none, stateRef := none, tags := PyVal.vNone,
        return_feedback_urls := false, dry_run := true }).result
        = Except.ok (HXValue.bundle b)
      ∧ b.tags = clientC.tags ++ [PyVal.vNone]
      ∧ clientC.tags ++ [PyVal.vNone] ≠ clientC.tags ++ normalizedSpec PyVal.vNone := by
  refine ⟨_, rfl, rfl, ?_⟩
  intro h
  have hlen := congrArg List.length h
  simp [clientC, mkClient, normalizedSpec] at hlen

/-! ### Claim C7 -/

/-- C7: envelope construction never fails.  A value the native
serializer cannot encode is serialized through `_serialize_object`
(its `repr`), and when `repr` itself fails the fixed placeholder
`<Cannot Be Serialized>` is embedded; `_generate_request` therefore
succeeds on every state. -/
theorem generate_request_never_fails (client : Client)
    (environment error_message error_type : String) (rfu : Bool)
    (state : PyDict) (tags : PyVal) (tb : List TbEntry) :
    (∃ p, generate_request client environment error_message error_type rfu
      state tags tb = Except.ok p)
    ∧ (∀ o : ObjData, dumpsVal serializeDefaultE (PyVal.vObj o)
        = Except.ok (jsonQuote (serialize_object o)))
    ∧ (∀ o : ObjData, o.reprResult = none →
        serialize_object o = "<Cannot Be Serialized>") := by
  refine ⟨generate_request_ok client environment error_message error_type rfu
    state tags tb, ?_, ?_⟩
  · intro o
    simp [dumpsVal, serializeDefaultE]
  · intro o h
    simp [serialize_object, h]

/-- An object whose `repr` raises. -/
def badObj : ObjData := { reprResult := none }

theorem generate_request_never_fails_witness :
    (∃ p, generate_request clientC "production" "boom" "ValueError" false
      [("bad", PyVal.vObj badObj)] PyVal.vNone [] = Except.ok p)
    ∧ serialize_object badObj = "<Cannot Be Serialized>" :=
  ⟨(generate_request_never_fails clientC "production" "boom" "ValueError" false
      [("bad", PyVal.vObj badObj)] PyVal.vNone []).1,
   (generate_request_never_fails clientC "production" "boom" "ValueError" false
      [("bad", PyVal.vObj badObj)] PyVal.vNone []).2.2 badObj rfl⟩

/-! ### Claim C8 -/

/-- C8: with `dry_run=True`, `handle_exception` performs no `urlopen`
call, and the bundle it returns holds exactly the arguments that the
same call with `dry_run=False` passes on to `send_error`; under a valid
exception context (and a working machine collector) the bundle is
returned with the documented fields. -/
theorem handle_exception_dry_run_no_network (client : Client) (env : HXEnv)
    (store0 : Store) (inp : HXInput) (hdry : inp.dry_run = true) :
    (handleException client env store0 inp).urlopenCalls = 0
    ∧ (∀ b, (handleException client env store0 inp).result
        = Except.ok (HXValue.bundle b) →
        (handleException client env store0 { inp with dry_run := false }).result
          = ((send_error client env.transport b.error_type b.error_message
              b.traceback b.environment b.state (PyVal.vList b.tags)
              b.return_feedback_urls).fst).map HXValue.response)
    ∧ (∀ tn, (resolveExcInfo inp.excInfoArg env.ambient).etype = some tn →
        (∃ m, get_machine_info env.machineEnv = Except.ok m) →
        ∃ b, (handleException client env store0 inp).result
          = Except.ok (HXValue.bundle b)
          ∧ b.error_type = tn
          ∧ b.error_message
            = pyStrOfValue (resolveExcInfo inp.excInfoArg env.ambient).value
          ∧ b.traceback
            = walkTb none 0 (resolveExcInfo inp.excInfoArg env.ambient).tb
          ∧ b.environment = client.environment
          ∧ b.tags = client.tags ++ normalizeTagsCode inp.tags
          ∧ b.return_feedback_urls = inp.return_feedback_urls) := by
  refine ⟨?_, ?_, ?_⟩
  · unfold handleException
    rcases hp : prepare client env store0 inp with ⟨res, st⟩
    cases res with
    | error e => rfl
    | ok args =>
        rw [hdry]
        rfl
  · intro b hb
    have hpf := handleException_bundle_eq client env store0 inp b hb
    unfold handleException
    rw [prepare_dry_irrel]
    rcases hp : prepare client env store0 inp with ⟨res, st⟩
    rw [hp] at hpf
    simp at hpf
    subst hpf
    rfl
  · intro tn hty hm
    obtain ⟨st, stf, hp⟩ := prepare_ok_spec client env store0 inp tn hty hm
    unfold handleException
    rw [hp, hdry]
    exact ⟨_, rfl, rfl, rfl, rfl, rfl, rfl, rfl⟩

/-- A dry-run input with one call-supplied tag. -/
def inpDry : HXInput :=
  { excInfoArg := none, stateRef := none, tags := PyVal.vStr "extra",
    return_feedback_urls := false, dry_run := true }

theorem handle_exception_dry_run_no_network_witness :
    (handleException clientC hxenvC [] inpDry).urlopenCalls = 0
    ∧ ∃ b, (handleException clientC hxenvC [] inpDry).result
        = Except.ok (HXValue.bundle b)
        ∧ b.error_type = "ZeroDivisionError"
        ∧ b.tags = clientC.tags ++ normalizeTagsCode (PyVal.vStr "extra") := by
  have h := handle_exception_dry_run_no_network clientC hxenvC [] inpDry rfl
  refine ⟨h.1, ?_⟩
  obtain ⟨b, hb, ht, _h1, _h2, _h3, htags, _h4⟩ :=
    h.2.2 "ZeroDivisionError" rfl ⟨_, rfl⟩
  exact ⟨b, hb, ht, htags⟩

/-! ### Claim C6 -/

/-- C6: caller-supplied `sys` / `machine` keys always win.  Whatever
value the caller's state dict already holds under `sys` or `machine` is
still there after the call — in the caller's dict and in the `state`
member of the bundle that is embedded in the envelope — on every path. -/
theorem handle_exception_caller_state_wins (client : Client) (env : HXEnv)
    (store0 : Store) (inp : HXInput) (r : Nat)
    (href : inp.stateRef = some r) (hr : r < store0.length) :
    (∀ v, dictLookup (storeGet store0 r) "sys" = some v →
      dictLookup (storeGet (handleException client env store0 inp).store r)
        "sys" = some v
      ∧ ∀ b, (handleException client env store0 inp).result
          = Except.ok (HXValue.bundle b) → dictLookup b.state "sys" = some v)
    ∧ (∀ w, dictLookup (storeGet store0 r) "machine" = some w →
      dictLookup (storeGet (handleException client env store0 inp).store r)
        "machine" = some w
      ∧ ∀ b, (handleException client env store0 inp).result
          = Except.ok (HXValue.bundle b) →
          dictLookup b.state "machine" = some w) := by
  obtain ⟨hlen, df, hdf, hargs, hcase⟩ :=
    prepare_state_effect client env store0 inp r href hr
  have hst := handleException_store_eq client env store0 inp
  constructor
  · intro v hv
    have hd2sys : dictLookup (addSysState env.sysInfo (storeGet store0 r))
        "sys" = some v := by
      rw [addSysState_of_present _ _ _ hv]; exact hv
    have hdfsys : dictLookup df "sys" = some v := by
      rcases hcase with hok | ⟨e, herr, hdfe⟩
      · rw [dictLookup_addMachineState_ne env.machineEnv _ df "sys" hok
          (by decide)]
        exact hd2sys
      · rw [hdfe]; exact hd2sys
    refine ⟨by rw [hst, hdf]; exact hdfsys, ?_⟩
    intro b hb
    have hbs := hargs b (handleException_bundle_eq client env store0 inp b hb)
    rw [hbs]; exact hdfsys
  · intro w hw
    have hd2m : dictLookup (addSysState env.sysInfo (storeGet store0 r))
        "machine" = some w := by
      rw [dictLookup_addSysState_ne _ _ _ (by decide)]; exact hw
    have hpres := addMachineState_of_present env.machineEnv _ w hd2m
    have hdfm : dictLookup df "machine" = some w := by
      rcases hcase with hok | ⟨e, herr, hdfe⟩
      · rw [← Except.ok.inj (hpres.symm.trans hok)]; exact hd2m
      · rw [hpres] at herr; exact Except.noConfusion herr
    refine ⟨by rw [hst, hdf]; exact hdfm, ?_⟩
    intro b hb
    have hbs := hargs b (handleException_bundle_eq client env store0 inp b hb)
    rw [hbs]; exact hdfm

/-- A call reading an existing state dict (reference 0), dry run. -/
def inpCallerState : HXInput :=
  { excInfoArg := none, stateRef := some 0, tags := PyVal.vNone,
    return_feedback_urls := false, dry_run := true }

theorem handle_exception_caller_state_wins_witness :
    dictLookup (storeGet (handleException clientC hxenvC
      [[("sys", PyVal.vStr "mine"), ("machine", PyVal.vStr "theirs")]]
      inpCallerState).store 0) "sys" = some (PyVal.vStr "mine")
    ∧ dictLookup (storeGet (handleException clientC hxenvC
      [[("sys", PyVal.vStr "mine"), ("machine", PyVal.vStr "theirs")]]
      inpCallerState).store 0) "machine" = some (PyVal.vStr "theirs") := by
  have h := handle_exception_caller_state_wins clientC hxenvC
    [[("sys", PyVal.vStr "mine"), ("machine", PyVal.vStr "theirs")]]
    inpCallerState 0 rfl (by decide)
  exact ⟨(h.1 _ rfl).1, (h.2 _ rfl).1⟩

/-! ### Claim C10 -/

/-- C10: `handle_exception` mutates the caller's state dict in place —
when the dict the caller passed (by reference) lacks `sys` and
`machine`, both keys are written into that very dict object (no copy is
made, no new dict is allocated), so the change is visible through the
caller's reference after the call. -/
theorem handle_exception_mutates_caller_state (client : Client) (env : HXEnv)
    (store0 : Store) (inp : HXInput) (r : Nat)
    (href : inp.stateRef = some r) (hr : r < store0.length)
    (hsys : dictLookup (storeGet store0 r) "sys" = none)
    (hmach : dictLookup (storeGet store0 r) "machine" = none)
    (hm : ∃ m, get_machine_info env.machineEnv = Except.ok m) :
    (handleException client env store0 inp).store.length = store0.length
    ∧ dictLookup (storeGet (handleException client env store0 inp).store r)
        "sys" = some env.sysInfo
    ∧ ∃ m, get_machine_info env.machineEnv = Except.ok m
        ∧ dictLookup (storeGet (handleException client env store0 inp).store r)
            "machine" = some (PyVal.vDict m) := by
  obtain ⟨m, hgm⟩ := hm
  obtain ⟨hlen, df, hdf, hargs, hcase⟩ :=
    prepare_state_effect client env store0 inp r href hr
  have hst := handleException_store_eq client env store0 inp
  have hd2sys : dictLookup (addSysState env.sysInfo (storeGet store0 r))
      "sys" = some env.sysInfo := dictLookup_addSysState_absent _ _ hsys
  have hd2m : dictLookup (addSysState env.sysInfo (storeGet store0 r))
      "machine" = none := by
    rw [dictLookup_addSysState_ne _ _ _ (by decide)]; exact hmach
  have hadd := dictLookup_addMachineState_absent env.machineEnv _ m hgm hd2m
  rcases hcase with hok | ⟨e, herr, hdfe⟩
  · have hdfeq : df = dictSet (addSysState env.sysInfo (storeGet store0 r))
        "machine" (PyVal.vDict m) := (Except.ok.inj (hadd.symm.trans hok)).symm
    refine ⟨by rw [hst]; exact hlen, ?_, m, hgm, ?_⟩
    · rw [hst, hdf, hdfeq, dictLookup_dictSet_ne _ _ _ _ (by decide)]
      exact hd2sys
    · rw [hst, hdf, hdfeq, dictLookup_dictSet_self]
  · rw [hadd] at herr
    exact Except.noConfusion herr

theorem handle_exception_mutates_caller_state_witness :
    (handleException clientC hxenvC [[("k", PyVal.vStr "v0")]]
      inpCallerState).store.length = 1
    ∧ dictLookup (storeGet (handleException clientC hxenvC
      [[("k", PyVal.vStr "v0")]] inpCallerState).store 0) "sys"
        = some hxenvC.sysInfo
    ∧ ∃ m, get_machine_info hxenvC.machineEnv = Except.ok m
        ∧ dictLookup (storeGet (handleException clientC hxenvC
            [[("k", PyVal.vStr "v0")]] inpCallerState).store 0) "machine"
          = some (PyVal.vDict m) := by
  have h := handle_exception_mutates_caller_state clientC hxenvC
    [[("k", PyVal.vStr "v0")]] inpCallerState 0 rfl (by decide) rfl rfl ⟨_, rfl⟩
  exact h
